import Mathlib

/-!
Verification of `src/scripts/example.py` (class `Neo4jUtil`, a Neo4j CRUD
client) against its natural-language specification.

The Python code is shallowly embedded: each method of `Neo4jUtil` becomes a
Lean function.  Python values that may appear as property values or results
are modelled by `PyObj`; the external Neo4j database is modelled by a
`GraphDB` state, and each generated Cypher query is interpreted by a
semantic helper that mirrors what the database does with exactly that query
shape.  Every operation also returns the list of Cypher strings it built
and ran (the code builds them with `str.format`; we concatenate the same
pieces), so that claims about which queries execute are statable.
-/

namespace Neo4jQuery

/-- Python values as they occur in this module: property values
(`str`, `int`, `float`, `bool`, `list`, `None`), result dictionaries, and
arbitrary other objects (`obj`, carried by their `str()` text, used only
when an unsupported value is logged).  Floats are carried by their Python
`repr` text: the code only ever formats them into query strings. -/
inductive PyObj where
  | none
  | bool (b : Bool)
  | int (n : Int)
  | float (text : String)
  | str (s : String)
  | list (xs : List PyObj)
  | dict (kvs : List (String × PyObj))
  | obj (text : String)

/-- Python exceptions that can surface in this module. -/
inductive PyErr where
  | valueError (msg : String)
  | nameError (msg : String)
  | constraintError (msg : String)
  | indexError (msg : String)
  | execError (msg : String)

mutual

/-- Python `repr(v)` for the values above, as used by `str()` on a list
(list elements are rendered with `repr`).  String quoting uses the single
quote; CPython's escaping of special characters inside string literals is
out of scope (no claim exercises it). -/
def pyRepr : PyObj → String
  | .none => "None"
  | .bool true => "True"
  | .bool false => "False"
  | .int n => toString n
  | .float t => t
  | .str s => "\x27" ++ s ++ "\x27"
  | .list xs => "[" ++ pyReprList xs ++ "]"
  | .dict kvs => "\x7b" ++ pyReprDict kvs ++ "\x7d"
  | .obj t => t

/-- Comma-joined `repr`s of the elements of a Python list. -/
def pyReprList : List PyObj → String
  | [] => ""
  | [x] => pyRepr x
  | x :: xs => pyRepr x ++ ", " ++ pyReprList xs

/-- Comma-joined `repr`s of the entries of a Python dict. -/
def pyReprDict : List (String × PyObj) → String
  | [] => ""
  | [(k, v)] => "\x27" ++ k ++ "\x27: " ++ pyRepr v
  | (k, v) :: kvs => "\x27" ++ k ++ "\x27: " ++ pyRepr v ++ ", " ++ pyReprDict kvs

end

/-- Python `str(v)` / `"\x7b\x7d".format(v)`: like `repr` except that a
top-level string is rendered without quotes. -/
def pyStr : PyObj → String
  | .str s => s
  | v => pyRepr v

namespace Neo4jUtil

/-- Embedding of `Neo4jUtil.labels2cypher`: colon-joins a label list. -/
def labels2cypher (labels : List String) : String :=
  String.intercalate ":" labels

/-- Embedding of the loop body of `Neo4jUtil.properties2cypher`, one entry
at a time: `None` becomes `SET n.`key` = ""`, a string becomes a
double-quoted literal, `int`/`float`/`bool`/`list` become `str(value)`
unquoted, and anything else produces no fragment (that entry only logs). -/
def propFragment (key : String) (value : PyObj) : Option String :=
  match value with
  | .none => some ("SET n.`" ++ key ++ "` = \"\"")
  | .str s => some ("SET n.`" ++ key ++ "` = \"" ++ s ++ "\"")
  | .int n => some ("SET n.`" ++ key ++ "` = " ++ pyStr (.int n))
  | .float t => some ("SET n.`" ++ key ++ "` = " ++ pyStr (.float t))
  | .bool b => some ("SET n.`" ++ key ++ "` = " ++ pyStr (.bool b))
  | .list xs => some ("SET n.`" ++ key ++ "` = " ++ pyStr (.list xs))
  | _ => Option.none

/-- The warning text `logger.warning` receives for an unsupported value. -/
def propWarning (value : PyObj) : String :=
  "[Neo4jClient properties2cypher] unsupported type <" ++ pyStr value ++ ">"

/-- Embedding of the `for key, value in properties.items()` loop of
`properties2cypher`: returns the accumulated `items` list and the list of
warnings logged for unsupported values, in iteration order. -/
def propLoop : List (String × PyObj) → List String × List String
  | [] => ([], [])
  | (key, value) :: rest =>
    let r := propLoop rest
    match value with
    | .none => (("SET n.`" ++ key ++ "` = \"\"") :: r.1, r.2)
    | .str s => (("SET n.`" ++ key ++ "` = \"" ++ s ++ "\"") :: r.1, r.2)
    | .int n => (("SET n.`" ++ key ++ "` = " ++ pyStr (.int n)) :: r.1, r.2)
    | .float t => (("SET n.`" ++ key ++ "` = " ++ pyStr (.float t)) :: r.1, r.2)
    | .bool b => (("SET n.`" ++ key ++ "` = " ++ pyStr (.bool b)) :: r.1, r.2)
    | .list xs => (("SET n.`" ++ key ++ "` = " ++ pyStr (.list xs)) :: r.1, r.2)
    | v => (r.1, propWarning v :: r.2)

/-- Embedding of `Neo4jUtil.properties2cypher`: space-joins the `items`
accumulated by the loop.  A Python dict is modelled as an association list
in insertion order. -/
def properties2cypher (properties : List (String × PyObj)) : String :=
  String.intercalate " " (propLoop properties).1

/-- The warnings `properties2cypher` logs (its side channel). -/
def propWarnings (properties : List (String × PyObj)) : List String :=
  (propLoop properties).2

end Neo4jUtil

/-- A node stored in the database: id, label list, and property map in
insertion order. -/
structure NodeRec where
  id : Int
  labels : List String
  props : List (String × PyObj)

/-- A relationship stored in the database: id, type, endpoint node ids and
property map. -/
structure RelRec where
  id : Int
  rtype : String
  headId : Int
  tailId : Int
  props : List (String × PyObj)

/-- The state of the external Neo4j database: an id counter and the stored
nodes and relationships. -/
structure GraphDB where
  nextId : Int
  nodes : List NodeRec
  rels : List RelRec

/-- Property lookup in a stored property map. -/
def lookupProp (props : List (String × PyObj)) (key : String) : Option PyObj :=
  match props with
  | [] => Option.none
  | (k, v) :: rest => if k = key then some v else lookupProp rest key

/-- Cypher `SET n.key = value` on a stored property map: replaces the value
of an existing key, otherwise appends the entry. -/
def setProp (props : List (String × PyObj)) (key : String) (value : PyObj) :
    List (String × PyObj) :=
  match props with
  | [] => [(key, value)]
  | (k, v) :: rest =>
    if k = key then (k, value) :: rest else (k, v) :: setProp rest key value

/-- What the database stores after parsing the Cypher literal
`properties2cypher` emits for a value: `None` was emitted as the empty
string literal so it is stored as `""`; strings, ints, floats, bools and
lists round-trip; an unsupported value produced no `SET` fragment at all,
so nothing is stored for it. -/
def storedValue : PyObj → Option PyObj
  | .none => some (.str "")
  | .str s => some (.str s)
  | .int n => some (.int n)
  | .float t => some (.float t)
  | .bool b => some (.bool b)
  | .list xs => some (.list xs)
  | _ => Option.none

/-- Applies the `SET` fragments generated for a property dict to a stored
property map, in order; entries whose value produced no fragment are
skipped. -/
def applySets (props : List (String × PyObj)) (updates : List (String × PyObj)) :
    List (String × PyObj) :=
  match updates with
  | [] => props
  | (k, v) :: rest =>
    match storedValue v with
    | some sv => applySets (setProp props k sv) rest
    | Option.none => applySets props rest

/-- Semantics of `MATCH (n:L1:...:Lk) WHERE n.name="name"`: a node matches
when it carries every listed label and its `name` property is the given
string. -/
def nodeMatches (labels : List String) (name : String) (n : NodeRec) : Bool :=
  labels.all (fun l => n.labels.contains l) &&
    (match lookupProp n.props "name" with
     | some (.str s) => s = name
     | _ => false)

/-- One row bound by a relationship pattern `(n)-[r]-(m)` or `(n)-[r]->(m)`. -/
structure RelRow where
  n : Int
  r : RelRec
  m : Int

/-- Semantics of the directed pattern `MATCH (n)-[r]->(m)`: each stored
relationship is bound once, head to tail. -/
def relRowsDirected (db : GraphDB) : List RelRow :=
  db.rels.map (fun r => ⟨r.headId, r, r.tailId⟩)

/-- Semantics of the undirected pattern `MATCH (n)-[r]-(m)`: each stored
relationship is bound in both orientations. -/
def relRowsUndirected (db : GraphDB) : List RelRow :=
  db.rels.flatMap (fun r => [⟨r.headId, r, r.tailId⟩, ⟨r.tailId, r, r.headId⟩])

namespace Neo4jUtil

/-- Embedding of `Neo4jUtil.serialize_node`: a dict with id, labels and
properties. -/
def serialize_node (n : NodeRec) : PyObj :=
  .dict [("id", .int n.id), ("labels", .list (n.labels.map PyObj.str)),
         ("properties", .dict n.props)]

/-- Embedding of `Neo4jUtil.serialize_relation`: a dict with id, type, the
ids of the start and end nodes, and properties. -/
def serialize_relation (r : RelRec) : PyObj :=
  .dict [("id", .int r.id), ("type", .str r.rtype), ("head_id", .int r.headId),
         ("tail_id", .int r.tailId), ("properties", .dict r.props)]

/-- Embedding of `Neo4jUtil.set_unique`.  The constraint-creation query
goes to the executor, whose outcome (row list or raised exception) is a
parameter; the `try`/`except Exception` turns every exception into
`status True, message exists` and the success path into
`status True, message succeed`.  Returns the result dict and the Cypher
run. -/
def set_unique (labels : List String) (property_name : String)
    (execOutcome : Except PyErr (List PyObj)) : PyObj × List String :=
  let cypher := "CREATE CONSTRAINT ON (n: " ++ labels2cypher labels ++
    ") ASSERT n.`" ++ property_name ++ "` IS UNIQUE"
  match execOutcome with
  | .ok _ => (.dict [("status", .bool true), ("message", .str "succeed")], [cypher])
  | .error _ => (.dict [("status", .bool true), ("message", .str "exists")], [cypher])

/-- Embedding of `Neo4jUtil.exists_node`: runs the label/name MATCH and
returns `True` iff the row list is nonempty. -/
def exists_node (labels : List String) (name : String) (db : GraphDB) :
    Bool × List String :=
  let cypher := "MATCH (n:" ++ labels2cypher labels ++ ") WHERE n.name=\"" ++
    name ++ "\" RETURN ID(n)"
  (!(db.nodes.filter (nodeMatches labels name)).isEmpty, [cypher])

/-- The property map of the node the CREATE query of `create_node` stores:
first `SET n.name="name"`, then the fragments of the given properties in
order. -/
def createdNodeProps (name : String) (properties : List (String × PyObj)) :
    List (String × PyObj) :=
  applySets [("name", .str name)] properties

/-- Embedding of `Neo4jUtil.create_node`: returns
`status False, message exists` (with the initial empty `node` entry) when
`exists_node` already matches, without building or running the CREATE
query; otherwise runs the CREATE query, which stores a fresh node carrying
the labels, the forced `name` property and the encodable given properties,
and returns it serialized.  Result is (result dict, new db, Cyphers run). -/
def create_node (labels : List String) (name : String)
    (properties : List (String × PyObj)) (db : GraphDB) :
    PyObj × GraphDB × List String :=
  let e := exists_node labels name db
  if e.1 then
    (.dict [("status", .bool false), ("message", .str "exists"), ("node", .list [])],
     db, e.2)
  else
    let cypher := "CREATE (n: " ++ labels2cypher labels ++ ") SET n.name=\"" ++
      name ++ "\" " ++ properties2cypher properties ++ " RETURN n"
    let node : NodeRec := ⟨db.nextId, labels, createdNodeProps name properties⟩
    let db2 : GraphDB := ⟨db.nextId + 1, db.nodes ++ [node], db.rels⟩
    (.dict [("status", .bool true), ("message", .str "succeed"),
            ("node", serialize_node node)],
     db2, e.2 ++ [cypher])

/-- Names bound at module level in `example.py` (its imports and top-level
assignments).  `ConstraintError` is not among them: the module never
imports it, so evaluating the clause `except ConstraintError:` raises
`NameError` at exception-handling time. -/
def exampleModuleNames : List String :=
  ["logging", "GraphDatabase", "Node", "Relationship", "List", "Dict", "Union",
   "logger", "Neo4jUtil"]

/-- Semantics of `MATCH (n) WHERE ID(n) = id DELETE n`: deleting a matched
node that still has relationships raises the driver's `ConstraintError`;
otherwise the matched nodes (zero or one) are removed. -/
def runDeleteNode (id_ : Int) (db : GraphDB) : Except PyErr GraphDB :=
  if (db.nodes.filter (fun n => n.id == id_)).any
      (fun n => db.rels.any (fun r => r.headId == n.id || r.tailId == n.id)) then
    .error (.constraintError "Cannot delete node, because it still has relationships.")
  else
    .ok ⟨db.nextId, db.nodes.filter (fun n => !(n.id == id_)), db.rels⟩

/-- Embedding of `Neo4jUtil.delete_node`, parameterized by the module
namespace Python consults when it evaluates `except ConstraintError:`.
When the name is bound there the handler catches exactly the driver's
constraint error and returns `status False, still has relations`; when it
is not bound (the case of `example.py`), Python raises `NameError` instead
of running the handler. -/
def delete_nodeIn (moduleNames : List String) (id_ : Int) (db : GraphDB) :
    Except PyErr PyObj × GraphDB × List String :=
  let cypher := "MATCH (n) WHERE ID(n) = " ++ toString id_ ++ " DELETE n"
  match runDeleteNode id_ db with
  | .ok db2 =>
    (.ok (.dict [("status", .bool true), ("message", .str "deleted")]), db2, [cypher])
  | .error e =>
    if moduleNames.contains "ConstraintError" then
      match e with
      | .constraintError _ =>
        (.ok (.dict [("status", .bool false), ("message", .str "still has relations")]),
         db, [cypher])
      | _ => (.error e, db, [cypher])
    else
      (.error (.nameError "name \x27ConstraintError\x27 is not defined"), db, [cypher])

/-- The `delete_node` of `example.py`: the module namespace is the one the
file actually has. -/
def delete_node (id_ : Int) (db : GraphDB) :
    Except PyErr PyObj × GraphDB × List String :=
  delete_nodeIn exampleModuleNames id_ db

/-- Embedding of `Neo4jUtil.get_node`: match by id, serialize when found,
`status False, not exists` otherwise. -/
def get_node (id_ : Int) (db : GraphDB) : PyObj × List String :=
  let cypher := "MATCH (n) WHERE ID(n) = " ++ toString id_ ++ " RETURN n"
  match db.nodes.find? (fun n => n.id == id_) with
  | some n =>
    (.dict [("status", .bool true), ("message", .str "succeed"),
            ("node", serialize_node n)], [cypher])
  | Option.none => (.dict [("status", .bool false), ("message", .str "not exists")], [cypher])

/-- Embedding of `Neo4jUtil.update_node`: match by id, apply the generated
SET fragments, return the updated node; `status False, not exists` when no
row matches. -/
def update_node (id_ : Int) (properties : List (String × PyObj)) (db : GraphDB) :
    PyObj × GraphDB × List String :=
  let cypher := "MATCH (n) WHERE ID(n) = " ++ toString id_ ++ " " ++
    properties2cypher properties ++ " RETURN n"
  match db.nodes.find? (fun n => n.id == id_) with
  | some n =>
    let n2 : NodeRec := ⟨n.id, n.labels, applySets n.props properties⟩
    let db2 : GraphDB :=
      ⟨db.nextId, db.nodes.map (fun m => if m.id == id_ then n2 else m), db.rels⟩
    (.dict [("status", .bool true), ("message", .str "updated"),
            ("node", serialize_node n2)], db2, [cypher])
  | Option.none =>
    (.dict [("status", .bool false), ("message", .str "not exists")], db, [cypher])

/-- Embedding of `Neo4jUtil.delete_property`: runs the REMOVE query and
falls off the end of the function, so its value is Python `None`. -/
def delete_property (id_ : Int) (property : String) (db : GraphDB) :
    PyObj × GraphDB × List String :=
  let cypher := "MATCH (n) WHERE ID(n) = " ++ toString id_ ++ " REMOVE n.`" ++
    property ++ "`"
  let db2 : GraphDB :=
    ⟨db.nextId,
     db.nodes.map (fun n =>
       if n.id == id_ then ⟨n.id, n.labels, n.props.filter (fun kv => kv.1 ≠ property)⟩
       else n),
     db.rels⟩
  (.none, db2, [cypher])

/-- Python `isinstance(v, int)`: true for ints and for bools (`bool` is a
subtype of `int` in Python). -/
def pyIsInt : PyObj → Bool
  | .int _ => true
  | .bool _ => true
  | _ => false

/-- Embedding of `Neo4jUtil.get_relation`: raises `ValueError` before any
query is built when the id is `None` or not an integer; otherwise runs the
directed match on `ID(r)` and serializes the first row, or reports
`status False, not exists`.  A boolean id builds `ID(r)=True`/`ID(r)=False`,
which compares an integer with a boolean and matches no row. -/
def get_relation (id_ : PyObj) (db : GraphDB) : Except PyErr PyObj × List String :=
  match id_ with
  | .none => (.error (.valueError "relation id not found"), [])
  | _ =>
    if !(pyIsInt id_) then (.error (.valueError "id not is int."), [])
    else
      let cypher := "MATCH ()-[r]->() WHERE ID(r)=" ++ pyStr id_ ++ " RETURN r"
      let rows := (relRowsDirected db).filter
        (fun row => match id_ with | .int n => row.r.id == n | _ => false)
      match rows with
      | row :: _ =>
        (.ok (.dict [("status", .bool true), ("message", .str "succeed"),
                     ("relation", serialize_relation row.r)]), [cypher])
      | [] =>
        (.ok (.dict [("status", .bool false), ("message", .str "not exists")]), [cypher])

/-- Embedding of `Neo4jUtil.exists_relation`: directed pattern when
`strict`, undirected otherwise, filtered by the two endpoint ids and the
relationship type; `True` iff at least one row is matched. -/
def exists_relation (head_id tail_id : Int) (rtype : String) (strict : Bool)
    (db : GraphDB) : Bool × List String :=
  let base := if strict then "MATCH (n)-[r]->(m)" else "MATCH (n)-[r]-(m)"
  let cypher := base ++ " WHERE ID(n)=" ++ toString head_id ++ " AND ID(m)=" ++
    toString tail_id ++ " AND type(r) = \x27" ++ rtype ++ "\x27 RETURN r"
  let rows := (if strict then relRowsDirected db else relRowsUndirected db).filter
    (fun row => row.n == head_id && row.m == tail_id && row.r.rtype == rtype)
  (!rows.isEmpty, [cypher])

/-- Embedding of `Neo4jUtil.create_relation`: returns
`status False, exists` when `exists_relation` (with its default
`strict=False`) already matches; otherwise runs the create query.  The
query only creates when both endpoint nodes match, so when one is missing
the row list is empty and `results[0]` raises `IndexError`. -/
def create_relation (head_id tail_id : Int) (properties : List (String × PyObj))
    (rtype : String) (db : GraphDB) :
    Except PyErr PyObj × GraphDB × List String :=
  let e := exists_relation head_id tail_id rtype false db
  if e.1 then
    (.ok (.dict [("status", .bool false), ("message", .str "exists"), ("data", .list [])]),
     db, e.2)
  else
    let cypher := "match (n1), (n2) where id(n1)=" ++ toString head_id ++
      " and id(n2)=" ++ toString tail_id ++ " create (n1)-[n:`" ++ rtype ++
      "`]->(n2) " ++ properties2cypher properties ++ " return n"
    if db.nodes.any (fun n => n.id == head_id) && db.nodes.any (fun n => n.id == tail_id) then
      let rel : RelRec := ⟨db.nextId, rtype, head_id, tail_id, applySets [] properties⟩
      let db2 : GraphDB := ⟨db.nextId + 1, db.nodes, db.rels ++ [rel]⟩
      (.ok (.dict [("status", .bool true), ("message", .str "succeed"),
                   ("data", .list []), ("relation", serialize_relation rel)]),
       db2, e.2 ++ [cypher])
    else
      (.error (.indexError "list index out of range"), db, e.2 ++ [cypher])

/-- Embedding of `Neo4jUtil.update_relation`: undirected match on `ID(n)`,
apply the SET fragments, return the updated relationship under the key
`node` (as the source does); `status False, relation not exists` when no
row matches. -/
def update_relation (id_ : Int) (properties : List (String × PyObj)) (db : GraphDB) :
    PyObj × GraphDB × List String :=
  let cypher := "MATCH ()-[n]-() WHERE ID(n) = " ++ toString id_ ++ " " ++
    properties2cypher properties ++ " return n"
  match db.rels.find? (fun r => r.id == id_) with
  | some r =>
    let r2 : RelRec := ⟨r.id, r.rtype, r.headId, r.tailId, applySets r.props properties⟩
    let db2 : GraphDB :=
      ⟨db.nextId, db.nodes, db.rels.map (fun s => if s.id == id_ then r2 else s)⟩
    (.dict [("status", .bool true), ("message", .str "updated"),
            ("node", serialize_relation r2)], db2, [cypher])
  | Option.none =>
    (.dict [("status", .bool false), ("message", .str "relation not exists")], db, [cypher])

/-- Embedding of `Neo4jUtil.delete_relation`: runs the undirected delete
(which removes the matched relationships, a no-op when the id matches
none) and unconditionally returns `status True, deleted`. -/
def delete_relation (id_ : Int) (db : GraphDB) : PyObj × GraphDB × List String :=
  let cypher := "MATCH ()-[r]-() WHERE ID(r) = " ++ toString id_ ++ " DELETE r"
  let db2 : GraphDB := ⟨db.nextId, db.nodes, db.rels.filter (fun r => !(r.id == id_))⟩
  (.dict [("status", .bool true), ("message", .str "deleted")], db2, [cypher])

/-- A concrete database: nodes 0 (Alice) and 1 (Bob) joined by a KNOWS
relationship with id 100. -/
def dbRel : GraphDB :=
  ⟨2, [⟨0, ["Person"], [("name", .str "Alice")]⟩, ⟨1, ["Person"], [("name", .str "Bob")]⟩],
   [⟨100, "KNOWS", 0, 1, []⟩]⟩

/-- A concrete database: one node 0 (Alice) and no relationships. -/
def dbNoRel : GraphDB :=
  ⟨1, [⟨0, ["Person"], [("name", .str "Alice")]⟩], []⟩

/-- The entries of a result dict (empty for a non-dict value). -/
def dictEntries : PyObj → List (String × PyObj)
  | .dict kvs => kvs
  | _ => []

/-- A value has the public result shape when it is a dict whose `status`
entry is a boolean and whose `message` entry is a string. -/
def isResultShape : PyObj → Bool
  | .dict kvs =>
    (match lookupProp kvs "status" with
     | some (.bool _) => true
     | _ => false)
    && (match lookupProp kvs "message" with
        | some (.str _) => true
        | _ => false)
  | _ => false

end Neo4jUtil

/-! ## Helper lemmas -/

namespace Neo4jUtil

/-- The loop of `properties2cypher` produces exactly one fragment per
supported entry (in order) and one warning per unsupported entry. -/
theorem propLoop_eq (props : List (String × PyObj)) :
    propLoop props =
      (props.filterMap (fun kv => propFragment kv.1 kv.2),
       (props.filter (fun kv => (propFragment kv.1 kv.2).isNone)).map
         (fun kv => propWarning kv.2)) := by
  induction props with
  | nil => rfl
  | cons kv rest ih =>
    obtain ⟨key, value⟩ := kv
    cases value <;>
      simp [propLoop, propFragment, ih, List.filterMap_cons, List.filter_cons]

end Neo4jUtil

/-! ## Claim theorems -/

namespace Neo4jUtil

/-- C2 counterexample: the fragment generated for a `true` boolean is
`SET n.`active` = True` (Python formats the boolean as `True`), so the
clause the claim demands, with lowercase `true`, is not produced. -/
theorem c2_counterexample :
    ¬ (properties2cypher [("age", PyObj.int 30), ("active", PyObj.bool true)]
        = "SET n.`age` = 30 SET n.`active` = true") := by
  decide

/-- C2 amended: `propertiesClause` on the map `age ↦ 30, active ↦ true`
produces exactly `SET n.`age` = 30 SET n.`active` = True` — one
backtick-quoted SET fragment per key, space-joined in insertion order,
numbers unquoted in decimal and booleans unquoted in Python's capitalized
`True`/`False` form (not the query language's lowercase form), with the
empty map yielding the empty string. -/
theorem c2_amended :
    properties2cypher [("age", PyObj.int 30), ("active", PyObj.bool true)]
        = "SET n.`age` = 30 SET n.`active` = True"
    ∧ properties2cypher [] = ""
    ∧ (∀ k : String, ∀ b : Bool,
        properties2cypher [(k, PyObj.bool b)]
          = "SET n.`" ++ k ++ "` = " ++ (if b then "True" else "False"))
    ∧ (∀ k : String, ∀ n : Int,
        properties2cypher [(k, PyObj.int n)] = "SET n.`" ++ k ++ "` = " ++ toString n)
    ∧ (∀ props : List (String × PyObj),
        properties2cypher props
          = String.intercalate " " (props.filterMap (fun kv => propFragment kv.1 kv.2))) := by
  refine ⟨by decide, rfl, ?_, ?_, ?_⟩
  · intro k b; cases b <;> rfl
  · intro k n; rfl
  · intro props; simp [properties2cypher, propLoop_eq]

/-- C7: a `None` property value is encoded as the empty string literal, so
the generated clause for a null value and for the empty string coincide —
the null/empty-string distinction is lost in the query text, and the
database consequently stores `""` for a null. -/
theorem c7_null_encoded_as_empty_string :
    (∀ k : String,
        properties2cypher [(k, PyObj.none)] = "SET n.`" ++ k ++ "` = \"\"")
    ∧ (∀ k : String,
        properties2cypher [(k, PyObj.none)] = properties2cypher [(k, PyObj.str "")])
    ∧ storedValue PyObj.none = some (PyObj.str "") := by
  refine ⟨fun k => rfl, fun k => ?_, rfl⟩
  show "SET n.`" ++ k ++ "` = \"\"" = "SET n.`" ++ k ++ "` = \"" ++ "" ++ "\""
  simp [String.append_assoc]

/-- C8: encoding a full property map never fails — each unsupported entry
is dropped with one logged warning, and the returned clause is exactly the
space-join of the fragments of the supported entries, in order.  The
concrete conjuncts show a map with an unsupported (object-valued) entry:
the clause keeps exactly the two supported fragments and one warning is
logged. -/
theorem c8_unsupported_properties_skipped :
    (∀ props : List (String × PyObj),
        properties2cypher props
          = String.intercalate " " (props.filterMap (fun kv => propFragment kv.1 kv.2))
        ∧ propWarnings props
          = (props.filter (fun kv => (propFragment kv.1 kv.2).isNone)).map
              (fun kv => propWarning kv.2))
    ∧ properties2cypher
        [("a", PyObj.int 1), ("weird", PyObj.obj "<object>"), ("b", PyObj.str "x")]
        = "SET n.`a` = 1 SET n.`b` = \"x\""
    ∧ propWarnings
        [("a", PyObj.int 1), ("weird", PyObj.obj "<object>"), ("b", PyObj.str "x")]
        = ["[Neo4jClient properties2cypher] unsupported type <<object>>"] := by
  refine ⟨fun props => ⟨?_, ?_⟩, by decide, by decide⟩
  · simp [properties2cypher, propLoop_eq]
  · simp [propWarnings, propLoop_eq]

/-- C3: `set_unique` returns `status True` for every executor outcome —
message `succeed` when the constraint query runs without error and message
`exists` for every raised exception whatsoever; it never returns
`status False` and, since both constructors of the outcome are covered by
the `try`/`except`, it never propagates the exception. -/
theorem c3_set_unique_always_status_true :
    ∀ (labels : List String) (property_name : String)
      (rows : List PyObj) (e : PyErr),
      (set_unique labels property_name (.ok rows)).1
        = PyObj.dict [("status", .bool true), ("message", .str "succeed")]
      ∧ (set_unique labels property_name (.error e)).1
        = PyObj.dict [("status", .bool true), ("message", .str "exists")] := by
  intro labels property_name rows e
  exact ⟨rfl, rfl⟩

/-- C1: deleting node 0 of `dbRel`, which still has a relationship, makes
the executor raise the constraint violation, and the code then raises
`NameError` — the clause `except ConstraintError:` names a class the
module never imports — instead of returning the dedicated
`still has relations` result.  Had the name been bound (third conjunct),
the handler would return exactly that result; the relationship-free case
returns `deleted` as claimed. -/
theorem c1_delete_node_nameError :
    (delete_node 0 dbRel).1
      = Except.error (PyErr.nameError "name \x27ConstraintError\x27 is not defined")
    ∧ (delete_node 0 dbNoRel).1
      = Except.ok (PyObj.dict [("status", .bool true), ("message", .str "deleted")])
    ∧ (delete_nodeIn (exampleModuleNames ++ ["ConstraintError"]) 0 dbRel).1
      = Except.ok (PyObj.dict [("status", .bool false),
          ("message", .str "still has relations")])
    ∧ exampleModuleNames.contains "ConstraintError" = false := by
  exact ⟨rfl, rfl, rfl, rfl⟩

/-- C10: `delete_relation` returns `status True, deleted` for every id and
database state, with no validation branch and no not-exists branch; when
no relationship carries the id the database is left unchanged, so deleting
a non-existent id is indistinguishable from a successful deletion. -/
theorem c10_delete_relation_unconditional :
    ∀ (id_ : Int) (db : GraphDB),
      (delete_relation id_ db).1
        = PyObj.dict [("status", .bool true), ("message", .str "deleted")]
      ∧ ((∀ r ∈ db.rels, ¬ r.id = id_) → (delete_relation id_ db).2.1 = db) := by
  intro id_ db
  refine ⟨rfl, fun h => ?_⟩
  show GraphDB.mk db.nextId db.nodes (db.rels.filter (fun r => !(r.id == id_))) = db
  have hf : db.rels.filter (fun r => !(r.id == id_)) = db.rels :=
    List.filter_eq_self.mpr (fun r hr => by simp [h r hr])
  rw [hf]

/-- C10 witness: deleting relationship id 5, which `dbRel` does not
contain, still reports `deleted` and leaves the database unchanged. -/
theorem c10_delete_relation_unconditional_witness :
    (delete_relation 5 dbRel).1
      = PyObj.dict [("status", .bool true), ("message", .str "deleted")]
    ∧ (delete_relation 5 dbRel).2.1 = dbRel :=
  ⟨(c10_delete_relation_unconditional 5 dbRel).1,
   (c10_delete_relation_unconditional 5 dbRel).2 (by decide)⟩

/-- C6: the strict variant of `exists_relation` is true exactly when a
directed edge from `h` to `t` of the given type is stored; the non-strict
variant is symmetric in the two endpoints and is true exactly when such an
edge is stored in either orientation. -/
theorem c6_exists_relation_direction :
    ∀ (h t : Int) (ty : String) (db : GraphDB),
      ((exists_relation h t ty true db).1 = true ↔
        ∃ r ∈ db.rels, r.headId = h ∧ r.tailId = t ∧ r.rtype = ty)
      ∧ ((exists_relation h t ty false db).1 = (exists_relation t h ty false db).1)
      ∧ ((exists_relation h t ty false db).1 = true ↔
        ∃ r ∈ db.rels, ((r.headId = h ∧ r.tailId = t) ∨ (r.headId = t ∧ r.tailId = h))
          ∧ r.rtype = ty) := by
  intro h t ty db
  have hu : ∀ (a b : Int) (rels : List RelRec),
      (!((rels.flatMap
            (fun r => [RelRow.mk r.headId r r.tailId, RelRow.mk r.tailId r r.headId])).filter
          (fun row => row.n == a && row.m == b && row.r.rtype == ty)).isEmpty)
        = rels.any (fun r =>
            (r.headId == a && r.tailId == b) && r.rtype == ty
              || (r.tailId == a && r.headId == b) && r.rtype == ty) := by
    intro a b rels
    induction rels with
    | nil => rfl
    | cons r rest ih =>
      by_cases hb1 : ((r.headId == a && r.tailId == b) && r.rtype == ty) = true <;>
      by_cases hb2 : ((r.tailId == a && r.headId == b) && r.rtype == ty) = true <;>
        simp [List.flatMap_cons, List.filter_append, List.filter_cons, hb1, hb2, ih]
  have hchar : ∀ (a b : Int),
      ((exists_relation a b ty false db).1 = true ↔
        ∃ r ∈ db.rels, ((r.headId = a ∧ r.tailId = b) ∨ (r.headId = b ∧ r.tailId = a))
          ∧ r.rtype = ty) := by
    intro a b
    have e1 : (exists_relation a b ty false db).1
        = !((db.rels.flatMap
              (fun r => [RelRow.mk r.headId r r.tailId, RelRow.mk r.tailId r r.headId])).filter
            (fun row => row.n == a && row.m == b && row.r.rtype == ty)).isEmpty := rfl
    rw [e1, hu a b db.rels, List.any_eq_true]
    refine exists_congr fun r => and_congr_right fun _ => ?_
    simp only [Bool.or_eq_true, Bool.and_eq_true, beq_iff_eq]
    tauto
  have hd : ∀ (rels : List RelRec),
      (!((rels.map (fun r => RelRow.mk r.headId r r.tailId)).filter
          (fun row => row.n == h && row.m == t && row.r.rtype == ty)).isEmpty)
        = rels.any (fun r => (r.headId == h && r.tailId == t) && r.rtype == ty) := by
    intro rels
    induction rels with
    | nil => rfl
    | cons r rest ih =>
      by_cases hb1 : ((r.headId == h && r.tailId == t) && r.rtype == ty) = true <;>
        simp [List.map_cons, List.filter_cons, hb1, ih]
  refine ⟨?_, ?_, hchar h t⟩
  · have e1 : (exists_relation h t ty true db).1
        = !((db.rels.map (fun r => RelRow.mk r.headId r r.tailId)).filter
            (fun row => row.n == h && row.m == t && row.r.rtype == ty)).isEmpty := rfl
    rw [e1, hd db.rels, List.any_eq_true]
    refine exists_congr fun r => and_congr_right fun _ => ?_
    simp only [Bool.and_eq_true, beq_iff_eq]
    tauto
  · rw [Bool.eq_iff_iff, hchar h t, hchar t h]
    constructor <;>
      (rintro ⟨r, hr, hor, hty⟩; exact ⟨r, hr, by tauto, hty⟩)

/-- C5: `get_relation` raises `ValueError` before building any query (the
Cypher trace is empty) when the id is `None` or a string, and on an id
whose directed match finds a stored relationship it returns
`status True, succeed` with that relationship serialized; the serialized
record's `head_id` and `tail_id` are the stored edge's endpoints. -/
theorem c5_get_relation_validation :
    (∀ db : GraphDB,
      get_relation PyObj.none db
        = (.error (.valueError "relation id not found"), []))
    ∧ (∀ db : GraphDB,
      get_relation (PyObj.str "abc") db
        = (.error (.valueError "id not is int."), []))
    ∧ (∀ (n : Int) (db : GraphDB) (r : RelRec) (rest : List RelRec),
        db.rels.filter (fun s => s.id == n) = r :: rest →
        get_relation (PyObj.int n) db
          = (.ok (PyObj.dict [("status", .bool true), ("message", .str "succeed"),
              ("relation", serialize_relation r)]),
             ["MATCH ()-[r]->() WHERE ID(r)=" ++ pyStr (PyObj.int n) ++ " RETURN r"]))
    ∧ (∀ r : RelRec,
        lookupProp (dictEntries (serialize_relation r)) "head_id" = some (.int r.headId)
        ∧ lookupProp (dictEntries (serialize_relation r)) "tail_id" = some (.int r.tailId)) := by
  refine ⟨fun db => rfl, fun db => rfl, ?_, fun r => ⟨rfl, rfl⟩⟩
  intro n db r rest hf
  have hrows : (relRowsDirected db).filter (fun row => row.r.id == n)
      = RelRow.mk r.headId r r.tailId
          :: rest.map (fun s => RelRow.mk s.headId s s.tailId) := by
    unfold relRowsDirected
    rw [List.filter_map]
    rw [show ((fun row => row.r.id == n) ∘ (fun s => RelRow.mk s.headId s s.tailId))
          = (fun s => s.id == n) from rfl]
    rw [hf, List.map_cons]
  show (match (relRowsDirected db).filter (fun row => row.r.id == n) with
        | row :: _ =>
          (Except.ok (PyObj.dict [("status", .bool true), ("message", .str "succeed"),
              ("relation", serialize_relation row.r)]),
           ["MATCH ()-[r]->() WHERE ID(r)=" ++ pyStr (PyObj.int n) ++ " RETURN r"])
        | [] =>
          (Except.ok (PyObj.dict [("status", .bool false), ("message", .str "not exists")]),
           ["MATCH ()-[r]->() WHERE ID(r)=" ++ pyStr (PyObj.int n) ++ " RETURN r"]))
      = (.ok (PyObj.dict [("status", .bool true), ("message", .str "succeed"),
          ("relation", serialize_relation r)]),
         ["MATCH ()-[r]->() WHERE ID(r)=" ++ pyStr (PyObj.int n) ++ " RETURN r"])
  rw [hrows]

/-- C5 witness: relationship 100 of `dbRel` is found and serialized with
its stored endpoints 0 and 1. -/
theorem c5_get_relation_validation_witness :
    get_relation (PyObj.int 100) dbRel
      = (.ok (PyObj.dict [("status", .bool true), ("message", .str "succeed"),
          ("relation", serialize_relation ⟨100, "KNOWS", 0, 1, []⟩)]),
         ["MATCH ()-[r]->() WHERE ID(r)=" ++ pyStr (PyObj.int 100) ++ " RETURN r"]) :=
  c5_get_relation_validation.2.2.1 100 dbRel ⟨100, "KNOWS", 0, 1, []⟩ [] rfl

/-- Looking a key up is unaffected by a `SET` on a different key. -/
theorem lookupProp_setProp_ne (props : List (String × PyObj)) (newKey lookKey : String)
    (v : PyObj) (h : ¬ newKey = lookKey) :
    lookupProp (setProp props newKey v) lookKey = lookupProp props lookKey := by
  induction props with
  | nil => simp [setProp, lookupProp, h]
  | cons kv rest ih =>
    obtain ⟨k0, v0⟩ := kv
    by_cases h0 : k0 = newKey
    · subst h0
      simp [setProp, lookupProp, h]
    · by_cases h1 : k0 = lookKey <;>
        simp [setProp, lookupProp, h0, h1, ih,
          show ¬ lookKey = newKey from fun e => h e.symm]

/-- Looking a key up is unaffected by applying `SET` fragments none of
which target it. -/
theorem lookupProp_applySets_notin (updates : List (String × PyObj))
    (props : List (String × PyObj)) (lookKey : String)
    (h : ∀ kv ∈ updates, ¬ kv.1 = lookKey) :
    lookupProp (applySets props updates) lookKey = lookupProp props lookKey := by
  induction updates generalizing props with
  | nil => rfl
  | cons kv rest ih =>
    obtain ⟨k0, v0⟩ := kv
    have hk : ¬ k0 = lookKey := h (k0, v0) (List.mem_cons_self _ _)
    have hrest : ∀ kv ∈ rest, ¬ kv.1 = lookKey := fun kv hkv => h kv (List.mem_cons_of_mem _ hkv)
    cases hsv : storedValue v0 with
    | some sv =>
      show lookupProp (applySets props ((k0, v0) :: rest)) lookKey = lookupProp props lookKey
      rw [show applySets props ((k0, v0) :: rest)
            = (match storedValue v0 with
               | some sv => applySets (setProp props k0 sv) rest
               | Option.none => applySets props rest) from rfl]
      rw [hsv]
      rw [ih (setProp props k0 sv) hrest]
      exact lookupProp_setProp_ne props k0 lookKey sv hk
    | none =>
      show lookupProp (applySets props ((k0, v0) :: rest)) lookKey = lookupProp props lookKey
      rw [show applySets props ((k0, v0) :: rest)
            = (match storedValue v0 with
               | some sv => applySets (setProp props k0 sv) rest
               | Option.none => applySets props rest) from rfl]
      rw [hsv]
      exact ih props hrest

/-- C4: when `exists_node` already matches, `create_node` returns
`status False, exists` with the database unchanged and only the existence
MATCH in the Cypher trace (no CREATE query); otherwise it runs the CREATE
query with `name` forced into the property set ahead of the given
properties and returns the serialized fresh node; the stored node keeps
the forced `name` whenever the given properties do not themselves contain
a `name` key; and two successive `create_node(["Person"], "Alice")` calls
from the empty database make the second return `status False, exists`. -/
theorem c4_create_node_exists_guard :
    ∀ (labels : List String) (name : String) (props : List (String × PyObj)) (db : GraphDB),
      ((exists_node labels name db).1 = true →
        create_node labels name props db
          = (PyObj.dict [("status", .bool false), ("message", .str "exists"),
               ("node", .list [])],
             db,
             ["MATCH (n:" ++ labels2cypher labels ++ ") WHERE n.name=\"" ++ name
               ++ "\" RETURN ID(n)"]))
      ∧ ((exists_node labels name db).1 = false →
        create_node labels name props db
          = (PyObj.dict [("status", .bool true), ("message", .str "succeed"),
               ("node", serialize_node ⟨db.nextId, labels, createdNodeProps name props⟩)],
             ⟨db.nextId + 1, db.nodes ++ [⟨db.nextId, labels, createdNodeProps name props⟩],
              db.rels⟩,
             ["MATCH (n:" ++ labels2cypher labels ++ ") WHERE n.name=\"" ++ name
               ++ "\" RETURN ID(n)",
              "CREATE (n: " ++ labels2cypher labels ++ ") SET n.name=\"" ++ name ++ "\" "
               ++ properties2cypher props ++ " RETURN n"]))
      ∧ ((∀ kv ∈ props, ¬ kv.1 = "name") →
          lookupProp (createdNodeProps name props) "name" = some (.str name))
      ∧ ((create_node ["Person"] "Alice" []
            (create_node ["Person"] "Alice" [] (GraphDB.mk 0 [] [])).2.1).1
          = PyObj.dict [("status", .bool false), ("message", .str "exists"),
              ("node", .list [])]) := by
  intro labels name props db
  refine ⟨fun h => ?_, fun h => ?_, fun h => ?_, rfl⟩
  · simp only [create_node]
    rw [h]
    simp [exists_node]
  · simp only [create_node]
    rw [h]
    simp [exists_node]
  · unfold createdNodeProps
    rw [lookupProp_applySets_notin props _ _ h]
    rfl

/-- C4 witness: from the empty database `create_node` runs the CREATE
query and stores the node with the forced `name` plus the given `age`
property; on `dbRel`, where Alice already exists, it reports `exists` and
leaves the database untouched with no CREATE in the trace. -/
theorem c4_create_node_exists_guard_witness :
    create_node ["Person"] "Alice" [("age", PyObj.int 30)] (GraphDB.mk 0 [] [])
      = (PyObj.dict [("status", .bool true), ("message", .str "succeed"),
           ("node", serialize_node
             ⟨0, ["Person"], createdNodeProps "Alice" [("age", PyObj.int 30)]⟩)],
         ⟨1, [⟨0, ["Person"], createdNodeProps "Alice" [("age", PyObj.int 30)]⟩], []⟩,
         ["MATCH (n:" ++ labels2cypher ["Person"] ++ ") WHERE n.name=\"" ++ "Alice"
           ++ "\" RETURN ID(n)",
          "CREATE (n: " ++ labels2cypher ["Person"] ++ ") SET n.name=\"" ++ "Alice" ++ "\" "
           ++ properties2cypher [("age", PyObj.int 30)] ++ " RETURN n"])
    ∧ create_node ["Person"] "Alice" [] dbRel
      = (PyObj.dict [("status", .bool false), ("message", .str "exists"), ("node", .list [])],
         dbRel,
         ["MATCH (n:" ++ labels2cypher ["Person"] ++ ") WHERE n.name=\"" ++ "Alice"
           ++ "\" RETURN ID(n)"])
    ∧ lookupProp (createdNodeProps "Alice" [("age", PyObj.int 30)]) "name"
      = some (.str "Alice") :=
  ⟨(c4_create_node_exists_guard ["Person"] "Alice" [("age", PyObj.int 30)]
      (GraphDB.mk 0 [] [])).2.1 rfl,
   (c4_create_node_exists_guard ["Person"] "Alice" [] dbRel).1 rfl,
   (c4_create_node_exists_guard ["Person"] "Alice" [("age", PyObj.int 30)]
      (GraphDB.mk 0 [] [])).2.2.1 (by decide)⟩

/-- C9 counterexample: `delete_property` returns Python `None` — the
function body has no `return` — so it does not return a result of the
`status`/`message` shape the claim demands of every public operation. -/
theorem c9_counterexample_delete_property :
    (delete_property 0 "age" dbNoRel).1 = PyObj.none
    ∧ isResultShape (delete_property 0 "age" dbNoRel).1 = false := by
  exact ⟨rfl, rfl⟩

/-- C9 amended: every public operation that returns a result dict —
`set_unique`, `create_node`, `get_node`, `update_node`, `delete_node`,
`get_relation`, `create_relation`, `update_relation`, `delete_relation` —
returns, whenever it returns at all, a dict with a boolean `status` and a
string `message`; the exceptions forced by the code are `delete_property`,
which returns `None`, and the boolean predicates `exists_node` and
`exists_relation`, which return a bare boolean. -/
theorem c9_amended_result_shape :
    (∀ (l : List String) (p : String) (o : Except PyErr (List PyObj)),
      isResultShape (set_unique l p o).1 = true)
    ∧ (∀ (l : List String) (nm : String) (pr : List (String × PyObj)) (db : GraphDB),
      isResultShape (create_node l nm pr db).1 = true)
    ∧ (∀ (i : Int) (db : GraphDB), isResultShape (get_node i db).1 = true)
    ∧ (∀ (i : Int) (pr : List (String × PyObj)) (db : GraphDB),
      isResultShape (update_node i pr db).1 = true)
    ∧ (∀ (i : Int) (db : GraphDB) (r : PyObj),
      (delete_node i db).1 = .ok r → isResultShape r = true)
    ∧ (∀ (x : PyObj) (db : GraphDB) (r : PyObj),
      (get_relation x db).1 = .ok r → isResultShape r = true)
    ∧ (∀ (h t : Int) (pr : List (String × PyObj)) (ty : String) (db : GraphDB) (r : PyObj),
      (create_relation h t pr ty db).1 = .ok r → isResultShape r = true)
    ∧ (∀ (i : Int) (pr : List (String × PyObj)) (db : GraphDB),
      isResultShape (update_relation i pr db).1 = true)
    ∧ (∀ (i : Int) (db : GraphDB), isResultShape (delete_relation i db).1 = true) := by
  refine ⟨?_, ?_, ?_, ?_, ?_, ?_, ?_, ?_, ?_⟩
  · intro l p o
    cases o <;> rfl
  · intro l nm pr db
    unfold create_node
    dsimp only
    split <;> rfl
  · intro i db
    unfold get_node
    split <;> rfl
  · intro i pr db
    unfold update_node
    split <;> rfl
  · intro i db r h
    unfold delete_node delete_nodeIn at h
    split at h
    · simp at h
      subst h
      rfl
    · exact Except.noConfusion h
  · intro x db r h
    cases x with
    | int n =>
      simp only [get_relation] at h
      split at h
      · simp at h
      · split at h <;> (simp at h; subst h; rfl)
    | bool b =>
      simp only [get_relation] at h
      split at h
      · simp at h
      · split at h <;> (simp at h; subst h; rfl)
    | none => exact Except.noConfusion h
    | float t => exact Except.noConfusion h
    | str s => exact Except.noConfusion h
    | list xs => exact Except.noConfusion h
    | dict kvs => exact Except.noConfusion h
    | obj t => exact Except.noConfusion h
  · intro h t pr ty db r hh
    unfold create_relation at hh
    dsimp only at hh
    by_cases he : (exists_relation h t ty false db).1 = true
    · simp only [he, if_true] at hh
      simp at hh
      subst hh
      rfl
    · simp only [he, if_false, Bool.false_eq_true] at hh
      by_cases hn : ((db.nodes.any fun m => m.id == h) && db.nodes.any fun m => m.id == t)
          = true
      · simp only [hn, if_true] at hh
        simp at hh
        subst hh
        rfl
      · simp only [hn, if_false, Bool.false_eq_true] at hh
        exact Except.noConfusion hh
  · intro i pr db
    unfold update_relation
    split <;> rfl
  · intro i db
    rfl

/-- C9 amended witness: the three hypothesized conjuncts applied at
concrete inputs — a node delete on `dbNoRel`, a relationship read on
`dbRel`, and a duplicate relationship create on `dbRel`. -/
theorem c9_amended_result_shape_witness :
    isResultShape (PyObj.dict [("status", .bool true), ("message", .str "deleted")]) = true
    ∧ isResultShape (PyObj.dict [("status", .bool true), ("message", .str "succeed"),
        ("relation", serialize_relation ⟨100, "KNOWS", 0, 1, []⟩)]) = true
    ∧ isResultShape (PyObj.dict [("status", .bool false), ("message", .str "exists"),
        ("data", .list [])]) = true :=
  ⟨c9_amended_result_shape.2.2.2.2.1 0 dbNoRel
     (PyObj.dict [("status", .bool true), ("message", .str "deleted")]) rfl,
   c9_amended_result_shape.2.2.2.2.2.1 (PyObj.int 100) dbRel
     (PyObj.dict [("status", .bool true), ("message", .str "succeed"),
       ("relation", serialize_relation ⟨100, "KNOWS", 0, 1, []⟩)]) rfl,
   c9_amended_result_shape.2.2.2.2.2.2.1 0 1 [] "KNOWS" dbRel
     (PyObj.dict [("status", .bool false), ("message", .str "exists"),
       ("data", .list [])]) rfl⟩

end Neo4jUtil

end Neo4jQuery
